import Mathlib

/-
Verification development for the AI job-description generator
(`complete_job_generator.py`).  The classification-and-prompt-synthesis
pipeline is shallowly embedded: Python strings become Lean `String`s,
Python floats (years of experience) become `ℚ`, the remote completion
service is represented by an oracle argument of type
`Except String ChatResponse` (an `Except.error` models a transport
failure or timeout; `Except.ok` carries the response body), and Python
string operations (`in`, `lower`, `strip`, `split`) are modelled by
executable functions on the underlying character lists so that every
definition evaluates inside the kernel.
-/

/-! ## String primitives modelling Python semantics -/

/-- Boolean test that the first character list is a prefix of the second. -/
def listIsPre : List Char → List Char → Bool
  | [], _ => true
  | _ :: _, [] => false
  | a :: as, b :: bs => a == b && listIsPre as bs

/-- Boolean test that the first character list occurs contiguously inside the
second; this is the semantics of the Python substring operator `in`. -/
def listInfixOf : List Char → List Char → Bool
  | sub, [] => sub.isEmpty
  | sub, b :: bs => listIsPre sub (b :: bs) || listInfixOf sub bs

/-- Python `needle in haystack` on strings: contiguous substring containment. -/
def containsSub (needle haystack : String) : Bool :=
  listInfixOf needle.data haystack.data

/-- Python `str.lower()`: character-wise lowercasing.  (Implemented on the
character list so that it reduces in the kernel; `String.toLower` performs the
same character map.) -/
def pyLower (s : String) : String := String.mk (s.data.map Char.toLower)

/-- Helper for `pyStrip`: drop leading and trailing whitespace characters. -/
def stripList (l : List Char) : List Char :=
  ((l.dropWhile Char.isWhitespace).reverse.dropWhile Char.isWhitespace).reverse

/-- Python `str.strip()`: remove leading and trailing whitespace. -/
def pyStrip (s : String) : String := String.mk (stripList s.data)

/-- Helper for `pyWords`: cut a character list at whitespace, keeping empty
chunks (they are filtered away by `pyWords`, matching Python `str.split()`). -/
def splitChunks : List Char → List (List Char)
  | [] => [[]]
  | c :: cs =>
    if c.isWhitespace then [] :: splitChunks cs
    else
      match splitChunks cs with
      | [] => [[c]]
      | w :: ws => (c :: w) :: ws

/-- Python `str.split()` (no argument): whitespace-separated tokens, with
empty tokens discarded. -/
def pyWords (l : List Char) : List (List Char) :=
  (splitChunks l).filter (fun w => !w.isEmpty)

/-! ## Experience-level classification (source lines 61–189) -/

/-- The years-based ladder, the trailing `if/elif` chain of
`_fallback_experience_level` (source lines 176–189). -/
def yearsLadder (years : ℚ) : String :=
  if years < 1 then "Entry Level"
  else if years < 3 then "Junior"
  else if years < 7 then "Mid-Level"
  else if years < 12 then "Senior"
  else if years < 18 then "Manager"
  else if years < 25 then "Director"
  else "Executive"

/-- Embeds `_fallback_experience_level` (source lines 156–189): a chain of
keyword scans over the lowercased title, each returning a fixed level, followed
by the years ladder.  The Python default argument `job_title=""` is made
explicit: callers that omit the title pass `""`. -/
def fallback_experience_level (years : ℚ) (job_title : String) : String :=
  let title_lower := pyLower job_title
  if ["intern", "trainee", "apprentice"].any (fun keyword => containsSub keyword title_lower) then
    "Entry Level"
  else if ["junior", "assistant", "associate"].any (fun keyword => containsSub keyword title_lower) then
    "Junior"
  else if ["senior", "sr."].any (fun keyword => containsSub keyword title_lower) then
    "Senior"
  else if ["lead", "head", "principal"].any (fun keyword => containsSub keyword title_lower) then
    (if !(containsSub "principal" title_lower) then "Lead" else "Principal")
  else if ["manager"].any (fun keyword => containsSub keyword title_lower) then
    "Manager"
  else if ["director"].any (fun keyword => containsSub keyword title_lower) then
    "Director"
  else if ["vp", "vice president"].any (fun keyword => containsSub keyword title_lower) then
    "Executive"
  else if ["chief", "cfo", "ceo", "coo", "cto", "cio", "cmo", "c-level"].any
      (fun keyword => containsSub keyword title_lower) then
    "C-Level"
  else yearsLadder years

/-- A response from the chat-completion service; `content` is
`response.choices[0].message.content`. -/
structure ChatResponse where
  content : String
  deriving DecidableEq

/-- The controlled vocabulary of `_get_experience_level` (source lines
141–145).  The Python value is a `set`; only membership tests are performed on
it, so a list is an adequate model. -/
def valid_levels : List String :=
  ["Entry Level", "Junior", "Mid-Level", "Senior",
   "Lead", "Principal", "Manager", "Director",
   "Executive", "C-Level"]

/-- Embeds `_get_experience_level` (source lines 61–154) as a function of the
service outcome.  `Except.error` models the `except` path (transport error or
timeout); on success the stripped content is accepted when some valid level is
a substring of it (`any(valid in level ...)`).  Note that both fallback calls
in the source pass only `years` — the job title is NOT forwarded (lines 150 and
154), so the fallback runs with the default empty title.  The `job_title`
argument only feeds the classification sub-prompt, which the oracle model makes
irrelevant here. -/
def get_experience_level (svc : Except String ChatResponse) (years : ℚ)
    (job_title : String) : String :=
  match svc with
  | Except.error _ => fallback_experience_level years ""
  | Except.ok response =>
    let level := pyStrip response.content
    if valid_levels.any (fun valid => containsSub valid level) then level
    else fallback_experience_level years ""

/-! ## Industry classification (source lines 191–380) -/

/-- The ordered keyword table of `_fallback_industry_inference` (source lines
268–369).  A Python `dict` literal iterates in insertion order, so an ordered
association list is the faithful model. -/
def industry_keywords : List (String × List String) :=
  [("Technology & Software Development",
    ["software", "developer", "engineer", "programmer", "it", "coding",
     "devops", "architect", "qa", "web", "full stack", "backend", "frontend", "cloud"]),
   ("Artificial Intelligence & Machine Learning",
    ["ai", "artificial intelligence", "ml", "machine learning", "nlp",
     "deep learning", "cv", "computer vision", "data scientist", "data science"]),
   ("Cybersecurity & Information Security",
    ["cybersecurity", "infosec", "security analyst", "penetration tester",
     "ethical hacker", "cryptography", "network security"]),
   ("Data Analytics & Business Intelligence",
    ["data analyst", "data engineer", "bi", "business intelligence", "analytics"]),
   ("Financial Services & Banking",
    ["finance", "bank", "investment", "accounting", "auditor",
     "analyst", "treasury", "audit", "equity", "loan", "credit", "wealth"]),
   ("Financial Technology (FinTech)",
    ["fintech", "blockchain", "crypto", "defi", "digital payments",
     "mobile banking", "trading platform"]),
   ("Healthcare & Medical Services",
    ["doctor", "nurse", "clinician", "hospital", "medical", "healthcare",
     "therapist", "physician", "dentist", "surgeon"]),
   ("Pharmaceuticals & Biotechnology",
    ["biotech", "pharmaceutical", "drug", "clinical trials", "genomics", "molecular"]),
   ("Education & Training",
    ["teacher", "professor", "lecturer", "instructor", "tutor",
     "education", "curriculum", "school", "learning", "academic"]),
   ("Education Technology (EdTech)",
    ["edtech", "learning platform", "e-learning", "online courses",
     "education technology", "mooc"]),
   ("Green Technology & Renewable Energy",
    ["renewable", "solar", "wind", "sustainability", "green energy",
     "climate", "environmental", "clean tech", "carbon", "energy transition"]),
   ("Energy, Oil & Utilities",
    ["petroleum", "oil", "gas", "utilities", "hydropower", "nuclear"]),
   ("Manufacturing & Industrial Engineering",
    ["production", "manufacturing", "assembly", "automation", "mechanical",
     "industrial", "plant", "maintenance", "technician", "fabricator"]),
   ("Transportation, Logistics & Supply Chain",
    ["logistics", "supply chain", "transport", "delivery", "fleet",
     "shipping", "driver", "freight", "warehousing"]),
   ("Retail, E-commerce & Consumer Goods",
    ["retail", "store", "sales", "associate", "merchandise", "e-commerce",
     "shopping", "customer support", "buyer", "shop manager"]),
   ("Hospitality, Travel & Tourism",
    ["hotel", "hospitality", "restaurant", "chef", "catering",
     "travel", "tourism", "resort", "concierge", "bartender", "waiter"]),
   ("Digital Marketing & Advertising",
    ["marketing", "seo", "sem", "social media", "advertising", "growth",
     "content", "campaign", "influencer", "branding", "performance marketing"]),
   ("Creative, Design & Multimedia",
    ["designer", "graphic", "illustrator", "ux", "ui", "creative",
     "animator", "video editor", "photographer", "visual artist"]),
   ("Media, Journalism & Entertainment",
    ["journalist", "reporter", "media", "broadcaster", "radio",
     "television", "producer", "actor", "film", "music", "entertainment"]),
   ("Real Estate & Property",
    ["realtor", "broker", "real estate", "property", "leasing", "valuation"]),
   ("Legal & Compliance Services",
    ["attorney", "lawyer", "legal", "solicitor", "paralegal",
     "judge", "compliance", "contracts", "regulatory"]),
   ("Government, Policy & Public Administration",
    ["civil service", "government", "ambassador", "public sector", "policy",
     "municipal", "federal", "state", "regulatory officer"]),
   ("Consulting & Professional Services",
    ["consultant", "strategy", "operations", "management",
     "executive", "advisor", "business consultant", "corporate strategy"]),
   ("Non-Profit & Social Impact",
    ["non-profit", "charity", "ngo", "foundation", "volunteer",
     "community", "humanitarian", "social worker"]),
   ("Aerospace & Defense",
    ["aerospace", "defense", "pilot", "aviation", "army", "airforce",
     "military", "naval", "space", "satellite"]),
   ("Agriculture, Food & Farming",
    ["farmer", "agriculture", "horticulture", "crop", "food processing",
     "fisheries", "livestock"])]

/-- First-pass test of `_fallback_industry_inference` (source lines 371–373):
`any(kw in title_lower for kw in keywords)`. -/
def titleMatchesKeywords (title_lower : String) (keywords : List String) : Bool :=
  keywords.any (fun kw => containsSub kw title_lower)

/-- Second-pass test (source lines 375–378): the whole-word token set of the
lowercased title intersects the keyword set.
`tokens.intersection(set(keywords))` is truthy exactly when some keyword equals
some token. -/
def tokensMatchKeywords (title_lower : String) (keywords : List String) : Bool :=
  keywords.any (fun kw => (pyWords title_lower.data).contains kw.data)

/-- Embeds `_fallback_industry_inference` (source lines 265–380): substring
scan over the ordered keyword table, then a whole-word token-intersection scan,
then the default label. -/
def fallback_industry_inference (job_title : String) : String :=
  let title_lower := pyLower job_title
  match industry_keywords.find? (fun e => titleMatchesKeywords title_lower e.2) with
  | some e => e.1
  | none =>
    match industry_keywords.find? (fun e => tokensMatchKeywords title_lower e.2) with
    | some e => e.1
    | none => "General Business & Services"

/-- Simplified variant stated by the refinement claim: the substring scan
followed directly by the default label, with no token-intersection pass. -/
def fallback_industry_simple (job_title : String) : String :=
  let title_lower := pyLower job_title
  match industry_keywords.find? (fun e => titleMatchesKeywords title_lower e.2) with
  | some e => e.1
  | none => "General Business & Services"

/-- Embeds `_infer_industry` (source lines 191–263) as a function of the
service outcome: the stripped response is accepted when it is non-empty and its
length lies strictly between 2 and 100; otherwise, and on any transport error,
the deterministic fallback runs on the job title. -/
def infer_industry (svc : Except String ChatResponse) (job_title : String) : String :=
  match svc with
  | Except.error _ => fallback_industry_inference job_title
  | Except.ok response =>
    let industry := pyStrip response.content
    if !(industry == "") && industry.length > 2 && industry.length < 100 then industry
    else fallback_industry_inference job_title

/-! ## Prompt synthesis (source lines 382–446) -/

/-- The `JobParameters` dataclass (source lines 42–48); the two trailing fields
default to `None` in the source, modelled as `Option`. -/
structure JobParameters where
  job_title : String
  experience : ℚ
  education : String
  location_type : Option String
  required_skills : Option (List String)
  deriving DecidableEq

/-- Abstraction of Python number formatting (the f-string rendering of
`params.experience`); the development relies only on it being a deterministic
function of the value. -/
def pyNumRepr (q : ℚ) : String := toString q

/-- Python `str` of a list of strings, e.g. a bracketed, comma-separated,
single-quoted rendering (element escaping abstracted away). -/
def pyReprList (l : List String) : String :=
  "[" ++ String.intercalate ", " (l.map (fun s => "\x27" ++ s ++ "\x27")) ++ "]"

/-- Python `json.dumps` of a list of strings (element escaping abstracted). -/
def jsonDumpsList (l : List String) : String :=
  "[" ++ String.intercalate ", " (l.map (fun s => "\"" ++ s ++ "\"")) ++ "]"

/-- Python truthiness dispatch `x if x else d` for an optional string
(`None` and `""` are falsy). -/
def orElseStr (x : Option String) (d : String) : String :=
  match x with
  | none => d
  | some s => if s = "" then d else s

/-- Python truthiness dispatch for an optional list (`None` and `[]` are
falsy); `render` shows the list when it is truthy. -/
def orElseList (x : Option (List String)) (render : List String → String)
    (d : String) : String :=
  match x with
  | none => d
  | some [] => d
  | some l => render l

/-- The f-string of `_build_prompt` (source lines 388–445), as a function of
the request, the two classification results and the timestamp.  Literal braces
of the JSON skeleton (doubled in the Python f-string) are written escaped. -/
def buildPromptText (p : JobParameters) (exp_level industry timestamp : String) : String :=
  let location_main := orElseStr p.location_type
    "INFER and choose the best location type based on the role, e.g., Remote, Hybrid, On-site."
  let required_main := orElseList p.required_skills pyReprList
    "INFER and generate a professional, relevant skill set for the role, education, and experience level."
  let location_json := orElseStr p.location_type "INFER AND SET"
  let required_json := orElseList p.required_skills jsonDumpsList "INFER AND SET AS LIST"
  let experience_str := pyNumRepr p.experience
  String.intercalate "\n"
    ["",
     "You are an expert AI assistant specializing in creating fully detailed, professional job descriptions for ANY role, industry, or career background.",
     "",
     "Generate a complete, publish-ready job description in JSON format, with EXACTLY the following structure. Return ONLY the JSON (no other text).",
     "",
     "Input Parameters:",
     "- Job Title: " ++ p.job_title,
     "- Experience Required: " ++ experience_str ++ " years",
     "- Education: " ++ p.education,
     "- Location Type: " ++ location_main,
     "- Required Skills: " ++ required_main,
     "",
     "Required JSON Structure:",
     "\x7b",
     "  \"timestamp\": \"" ++ timestamp ++ "\",",
     "  \"params\": \x7b",
     "    \"job_title\": \"" ++ p.job_title ++ "\",",
     "    \"industry\": \"" ++ industry ++ "\",",
     "    \"Education\": \"" ++ p.education ++ "\",",
     "    \"experience_level\": \"" ++ exp_level ++ "\",",
     "    \"company_name\": \"Your Company\",",
     "    \"location_type\": \"" ++ location_json ++ "\",",
     "    \"experience\": " ++ experience_str ++ ",",
     "    \"required_skills\": " ++ required_json ++ ",",
     "    \"preferred_skills\": [",
     "      \"Generate 3-4 realistic, complementary skills for " ++ p.job_title ++ " at " ++ exp_level ++ " level\"",
     "    ]",
     "  \x7d,",
     "  \"outputs\": \x7b",
     "    \"sections\": \x7b",
     "      \"Executive Summary\": \"Provide a compelling overview of the " ++ p.job_title ++ " (" ++ exp_level ++ " level) opportunity at Your Company, emphasizing workplace culture and strategic impact, and referencing the need for " ++ experience_str ++ " years experience.\",",
     "      \"Key Responsibilities\": [",
     "        \"Generate 5-7 responsibilities for a " ++ p.job_title ++ " at " ++ exp_level ++ " level, each crafted for someone with " ++ experience_str ++ " years of relevant experience. Use strong action verbs and be as specific as possible. Include accountability, leadership, collaboration, technical/functional, and growth-focused duties.\"",
     "      ],",
     "      \"Required Qualifications\": [",
     "        \"List 4-6 non-negotiable requirements specifically tailored for " ++ p.job_title ++ ", including minimum education (" ++ p.education ++ "), " ++ experience_str ++ " years of experience, certifications, and essential hard/soft skills. Be precise and descriptive.\"",
     "      ],",
     "      \"Preferred Qualifications\": [",
     "        \"List 3-4 additional attributes that would particularly strengthen a candidate for this " ++ p.job_title ++ " at " ++ exp_level ++ " level (examples: advanced technologies, industry awards, specializations, leadership, bilingual ability, etc).\"",
     "      ],",
     "      \"What We Offer\": [",
     "        \"Describe 4-5 attractive benefits for a " ++ p.job_title ++ " (" ++ exp_level ++ "), focusing on growth, career development, work-life balance, competitive compensation, health/wellness, and workplace flexibility.\"",
     "      ],",
     "      \"skills\": [",
     "        \"List every unique tool, programming language, technology, and soft skill explicitly mentioned in Key Responsibilities, Required Qualifications, Preferred Qualifications, and any part of the job description (including e.g., SQL, Excel, Python, Tableau, Power BI, communication, analytical thinking, etc.). Ensure all such items are included as separate skills, with no duplicates.\"",
     "      ]",
     "    \x7d",
     "  \x7d",
     "\x7d",
     "",
     "Instructions:",
     "- job_title, education, and experience are always required and must be explicitly referenced throughout the output.",
     "- If location_type or required_skills are not provided, you must infer and generate them appropriately, choosing the most suitable values for " ++ p.job_title ++ " and education/experience context. Use professional and current industry-standard defaults.",
     "- Make every section rich, detailed, authentic, and professional—no placeholders.",
     "- Tailor all content to the provided job_title, experience, education, and inferred parameters.",
     "- All content must be role-specific, meaningful, and meet current industry standards.",
     "- Return ONLY valid JSON matching this exact structure. All arrays/fields must be fully populated with production-ready content.",
     ""]

/-- Embeds `_build_prompt` (source lines 382–446): it first obtains the two
classification results (each a tiered service call with deterministic
fallback), then interpolates them together with the raw parameters and the
timestamp (`datetime.now().isoformat()`, supplied here as the `timestamp`
argument standing for the current time). -/
def build_prompt (p : JobParameters) (timestamp : String)
    (expSvc indSvc : Except String ChatResponse) : String :=
  let exp_level := get_experience_level expSvc p.experience p.job_title
  let industry := infer_industry indSvc p.job_title
  buildPromptText p exp_level industry timestamp

/-! ## Document generation and the `main` pipeline (source lines 448–491) -/

/-- Embeds `generate` (source lines 448–460): the completion call's outcome is
passed through as-is — a raised transport error propagates unchanged (there is
no `try` and no custom error type in the source) and the body
`response.choices[0].message.content` is returned without any emptiness
check. -/
def generate (svc : Except String ChatResponse) : Except String String :=
  match svc with
  | Except.error e => Except.error e
  | Except.ok response => Except.ok response.content

/-- Outcome of one run of `main` (source lines 483–488): either
`save_job_description` was reached with a decoded document (exactly then a file
is written), or the run aborted with the propagated service error, or with the
`json.JSONDecodeError` raised by `json.loads`. -/
inductive MainOutcome (α : Type) where
  | wrote (doc : α)
  | service_error (msg : String)
  | json_decode_error
  deriving DecidableEq

/-- Embeds `main` (source lines 483–488) after `load_config`: run `generate`,
decode the raw text with `json.loads` (abstracted as the `decode` argument; the
real `json.loads` rejects an empty document, i.e. `decode "" = none`), then
`save_job_description` — which therefore runs only when decoding succeeds. -/
def runMain {α : Type} (decode : String → Option α)
    (svc : Except String ChatResponse) : MainOutcome α :=
  match generate svc with
  | Except.error e => MainOutcome.service_error e
  | Except.ok raw =>
    match decode raw with
    | none => MainOutcome.json_decode_error
    | some doc => MainOutcome.wrote doc

/-! ## Response validation -/

/-- The `JobSections` schema (source lines 24–32); field names follow the
source's pydantic model (its aliases map the pretty section headers, e.g.
"Executive Summary", onto these fields). -/
structure JobSections where
  Executive_Summary : String
  Key_Responsibilities : List String
  Required_Qualifications : List String
  Preferred_Qualifications : List String
  What_We_Offer : List String
  skills : List String
  deriving DecidableEq

/-- Set-membership de-duplication keeping first occurrences: `seen` holds the
already-emitted skills. -/
def dedupSeen (seen : List String) : List String → List String
  | [] => []
  | x :: xs => if x ∈ seen then dedupSeen seen xs else x :: dedupSeen (x :: seen) xs

/-- Skills de-duplication under case-sensitive exact string equality, keeping
the first occurrence of each skill. -/
def dedupSkills (l : List String) : List String := dedupSeen [] l

/-- Modelled from the spec: the ResponseValidator of spec §4.4 — the component
that turns raw model output into a validated `GeneratedDocument` — is not part
of `src/` (the source file only declares the pydantic schema `JobSections`,
lines 24–32, and `main`, lines 483–488, decodes with a bare `json.loads`).
Per the spec it fails with `SchemaError` when any required field/section of §3
is absent or empty, and performs the §3 skills de-duplication (no duplicates,
case-sensitive exact match as the key, order from first occurrence, matching
set-membership behavior). -/
def validate_sections (raw : JobSections) : Except String JobSections :=
  if raw.Executive_Summary = "" ∨ raw.Key_Responsibilities = [] ∨
     raw.Required_Qualifications = [] ∨ raw.Preferred_Qualifications = [] ∨
     raw.What_We_Offer = [] ∨ raw.skills = [] then
    Except.error "SchemaError"
  else
    Except.ok { raw with skills := dedupSkills raw.skills }

/-! ## Keyword inventory and level ranking used by the theorems -/

/-- All title keywords scanned by `_fallback_experience_level`
(source lines 159–173), in scan order. -/
def seniorityKeywords : List String :=
  ["intern", "trainee", "apprentice", "junior", "assistant", "associate",
   "senior", "sr.", "lead", "head", "principal", "manager", "director",
   "vp", "vice president", "chief", "cfo", "ceo", "coo", "cto", "cio", "cmo", "c-level"]

/-- The lowercased title contains some seniority keyword, i.e. some keyword
branch of the fallback fires before the years ladder. -/
def hasSeniorityKeyword (job_title : String) : Bool :=
  seniorityKeywords.any (fun keyword => containsSub keyword (pyLower job_title))

/-- Rank of the levels produced by the years ladder, in increasing seniority. -/
def levelRank : String → ℕ
  | "Entry Level" => 0
  | "Junior" => 1
  | "Mid-Level" => 2
  | "Senior" => 3
  | "Manager" => 4
  | "Director" => 5
  | "Executive" => 6
  | _ => 7

/-! ## Supporting lemmas -/

/-- With the empty title (the value the source's fallback calls effectively
use), every keyword test fails and the fallback is exactly the years ladder. -/
theorem fallback_empty_title (y : ℚ) : fallback_experience_level y "" = yearsLadder y := rfl

/-- `listIsPre` agrees with the prefix relation. -/
theorem listIsPre_iff (a : List Char) : ∀ (b : List Char), listIsPre a b = true ↔ a <+: b := by
  induction a with
  | nil =>
    intro b
    simp [listIsPre, List.nil_prefix]
  | cons x xs ih =>
    intro b
    cases b with
    | nil => simp [listIsPre, List.prefix_nil]
    | cons y ys =>
      rw [listIsPre]
      simp [List.cons_prefix_cons, Bool.and_eq_true, beq_iff_eq, ih ys, and_comm]

/-- `listInfixOf` agrees with the contiguous-substring (infix) relation. -/
theorem listInfixOf_iff (a : List Char) : ∀ (b : List Char), listInfixOf a b = true ↔ a <:+: b := by
  intro b
  induction b with
  | nil => simp [listInfixOf, List.isEmpty_iff, List.infix_nil]
  | cons y ys ih =>
    rw [listInfixOf]
    simp [Bool.or_eq_true, listIsPre_iff, ih, List.infix_cons_iff]

/-- `containsSub` is the substring relation on the underlying characters. -/
theorem containsSub_iff (needle haystack : String) :
    containsSub needle haystack = true ↔ needle.data <:+: haystack.data :=
  listInfixOf_iff needle.data haystack.data

/-- The chunk list of `splitChunks` is non-empty, its head is a prefix of the
input, and every chunk is a contiguous substring of the input. -/
theorem splitChunks_spec (l : List Char) :
    ∃ w ws, splitChunks l = w :: ws ∧ w <+: l ∧ ∀ u ∈ w :: ws, u <:+: l := by
  induction l with
  | nil =>
    refine ⟨[], [], rfl, ⟨[], rfl⟩, ?_⟩
    intro u hu
    simp only [List.mem_cons, List.not_mem_nil, or_false] at hu
    subst hu
    exact ⟨[], [], rfl⟩
  | cons c cs ih =>
    obtain ⟨w, ws, hsc, hpre, hall⟩ := ih
    by_cases hc : c.isWhitespace
    · refine ⟨[], w :: ws, ?_, ⟨c :: cs, rfl⟩, ?_⟩
      · simp only [splitChunks]
        rw [if_pos hc, hsc]
      · intro u hu
        rcases List.mem_cons.mp hu with h | h
        · subst h
          exact ⟨[], c :: cs, rfl⟩
        · obtain ⟨s, t, hst⟩ := hall u h
          exact ⟨c :: s, t, by rw [← hst]; rfl⟩
    · refine ⟨c :: w, ws, ?_, ?_, ?_⟩
      · simp only [splitChunks]
        rw [if_neg hc, hsc]
      · obtain ⟨t, ht⟩ := hpre
        exact ⟨t, by rw [← ht]; rfl⟩
      · intro u hu
        rcases List.mem_cons.mp hu with h | h
        · subst h
          obtain ⟨t, ht⟩ := hpre
          exact ⟨[], t, by rw [← ht]; rfl⟩
        · obtain ⟨s, t, hst⟩ := hall u (List.mem_cons_of_mem _ h)
          exact ⟨c :: s, t, by rw [← hst]; rfl⟩

/-- Every whitespace-separated token of a character list is a contiguous
substring of it. -/
theorem mem_pyWords_sub {l w : List Char} (h : w ∈ pyWords l) : w <:+: l := by
  obtain ⟨hw, -⟩ := List.mem_filter.mp h
  obtain ⟨w0, ws, hsc, -, hall⟩ := splitChunks_spec l
  rw [hsc] at hw
  exact hall w hw

/-- Skills already recorded as seen are never emitted again. -/
theorem not_mem_dedupSeen (x : String) :
    ∀ (l seen : List String), x ∈ seen → x ∉ dedupSeen seen l := by
  intro l
  induction l with
  | nil =>
    intro seen _
    simp [dedupSeen]
  | cons y ys ih =>
    intro seen hx
    rw [dedupSeen]
    by_cases hy : y ∈ seen
    · rw [if_pos hy]
      exact ih seen hx
    · rw [if_neg hy]
      intro hmem
      rcases List.mem_cons.mp hmem with h | h
      · exact hy (h ▸ hx)
      · exact ih (y :: seen) (List.mem_cons_of_mem _ hx) h

/-- The set-membership de-duplication emits no duplicates. -/
theorem nodup_dedupSeen : ∀ (l seen : List String), (dedupSeen seen l).Nodup := by
  intro l
  induction l with
  | nil =>
    intro seen
    simp [dedupSeen]
  | cons y ys ih =>
    intro seen
    rw [dedupSeen]
    by_cases hy : y ∈ seen
    · rw [if_pos hy]
      exact ih seen
    · rw [if_neg hy]
      exact List.nodup_cons.mpr
        ⟨not_mem_dedupSeen y ys (y :: seen) (List.mem_cons_self y seen), ih (y :: seen)⟩

/-- De-duplicating a non-empty skills list leaves it non-empty. -/
theorem dedupSkills_ne_nil {l : List String} (h : l ≠ []) : dedupSkills l ≠ [] := by
  cases l with
  | nil => exact absurd rfl h
  | cons x xs =>
    rw [dedupSkills, dedupSeen, if_neg (List.not_mem_nil x)]
    exact List.cons_ne_nil _ _

/-- `find?` returns the entry at index `i` when it satisfies the predicate and
no earlier entry does: the first-match semantics of the keyword-table scan. -/
theorem find_first {α : Type} (p : α → Bool) :
    ∀ (l : List α) (i : ℕ) (e : α), l.get? i = some e → p e = true →
      (∀ j, j < i → ∀ ej, l.get? j = some ej → p ej = false) →
      l.find? p = some e := by
  intro l
  induction l with
  | nil =>
    intro i e h
    simp at h
  | cons a as ih =>
    intro i e hget hpe hbefore
    cases i with
    | zero =>
      rw [List.get?_cons_zero] at hget
      injection hget with hget
      subst hget
      exact List.find?_cons_of_pos as hpe
    | succ i' =>
      have hpa : p a = false := hbefore 0 (Nat.succ_pos i') a List.get?_cons_zero
      rw [List.find?_cons_of_neg as (by simp [hpa])]
      rw [List.get?_cons_succ] at hget
      exact ih i' e hget hpe (fun j hj ej hj2 =>
        hbefore (j + 1) (Nat.succ_lt_succ hj) ej (by rw [List.get?_cons_succ]; exact hj2))

/-- Helper: with no seniority keyword in the title every keyword branch of the
fallback fails and the result is the years ladder. -/
theorem fallback_noKeyword (years : ℚ) (job_title : String)
    (h : hasSeniorityKeyword job_title = false) :
    fallback_experience_level years job_title = yearsLadder years := by
  rw [hasSeniorityKeyword, List.any_eq_false] at h
  have hk : ∀ k ∈ seniorityKeywords, containsSub k (pyLower job_title) = false := by
    intro k hkmem
    simpa using h k hkmem
  have hAny : ∀ (ks : List String), (∀ k ∈ ks, k ∈ seniorityKeywords) →
      (ks.any fun keyword => containsSub keyword (pyLower job_title)) = false := by
    intro ks hsub
    rw [List.any_eq_false]
    intro k hkm
    simp [hk k (hsub k hkm)]
  have h1 := hAny ["intern", "trainee", "apprentice"] (by decide)
  have h2 := hAny ["junior", "assistant", "associate"] (by decide)
  have h3 := hAny ["senior", "sr."] (by decide)
  have h4 := hAny ["lead", "head", "principal"] (by decide)
  have h5 := hAny ["manager"] (by decide)
  have h6 := hAny ["director"] (by decide)
  have h7 := hAny ["vp", "vice president"] (by decide)
  have h8 := hAny ["chief", "cfo", "ceo", "coo", "cto", "cio", "cmo", "c-level"] (by decide)
  simp [fallback_experience_level, h1, h2, h3, h4, h5, h6, h7, h8]

/-- C9: for every job title whose lowercase form contains the substring
"intern" (also inside longer words such as "internal" or "international"), the
fallback experience-level classification returns "Entry Level" for every years
value, even when the title also contains a higher seniority keyword, because
the intern/trainee/apprentice check short-circuits before all other keyword
checks and the years ladder. -/
theorem intern_short_circuits (years : ℚ) (job_title : String)
    (h : containsSub "intern" (pyLower job_title) = true) :
    fallback_experience_level years job_title = "Entry Level" := by
  have hc : (["intern", "trainee", "apprentice"].any
      fun keyword => containsSub keyword (pyLower job_title)) = true := by
    simp [h]
  simp [fallback_experience_level, hc]

/-- Witness for C9: a title containing "intern" only inside "International",
together with the higher keywords "Senior" and "Director", still classifies as
Entry Level at 40 years. -/
theorem intern_short_circuits_witness :
    fallback_experience_level 40 "Senior International Director" = "Entry Level" :=
  intern_short_circuits 40 "Senior International Director" (by decide)

/-- C7: a remote experience-level answer is accepted (returned stripped, as
is) exactly when some of the ten controlled vocabulary terms occurs in it as a
substring — so a multi-word answer merely mentioning a valid term is accepted —
and a remote industry answer is accepted exactly when its length lies strictly
between 2 and 100; every rejected answer and every transport failure triggers
the deterministic fallback. -/
theorem remote_acceptance_rules :
    (∀ (resp : ChatResponse),
      (valid_levels.any fun valid => containsSub valid (pyStrip resp.content)) = true ↔
        ∃ valid ∈ valid_levels, valid.data <:+: (pyStrip resp.content).data)
  ∧ (∀ (years : ℚ) (job_title : String) (resp : ChatResponse),
      (∃ valid ∈ valid_levels, valid.data <:+: (pyStrip resp.content).data) →
      get_experience_level (Except.ok resp) years job_title = pyStrip resp.content)
  ∧ (∀ (years : ℚ) (job_title : String) (resp : ChatResponse),
      (¬ ∃ valid ∈ valid_levels, valid.data <:+: (pyStrip resp.content).data) →
      get_experience_level (Except.ok resp) years job_title = fallback_experience_level years "")
  ∧ (∀ (job_title : String) (resp : ChatResponse),
      2 < (pyStrip resp.content).length → (pyStrip resp.content).length < 100 →
      infer_industry (Except.ok resp) job_title = pyStrip resp.content)
  ∧ (∀ (job_title : String) (resp : ChatResponse),
      ¬(2 < (pyStrip resp.content).length ∧ (pyStrip resp.content).length < 100) →
      infer_industry (Except.ok resp) job_title = fallback_industry_inference job_title)
  ∧ (∀ (years : ℚ) (job_title err : String),
      get_experience_level (Except.error err) years job_title =
        fallback_experience_level years "")
  ∧ (∀ (job_title err : String),
      infer_industry (Except.error err) job_title = fallback_industry_inference job_title) := by
  refine ⟨?_, ?_, ?_, ?_, ?_, fun years job_title err => rfl, fun job_title err => rfl⟩
  · intro resp
    simp [List.any_eq_true, containsSub_iff]
  · intro years job_title resp hex
    have hb : (valid_levels.any fun valid => containsSub valid (pyStrip resp.content)) = true := by
      rw [List.any_eq_true]
      obtain ⟨v, hv, hsub⟩ := hex
      exact ⟨v, hv, (containsSub_iff v _).mpr hsub⟩
    simp [get_experience_level, hb]
  · intro years job_title resp hex
    have hb : (valid_levels.any fun valid => containsSub valid (pyStrip resp.content)) = false := by
      rw [List.any_eq_false]
      intro v hv hcontra
      exact hex ⟨v, hv, (containsSub_iff v _).mp hcontra⟩
    simp [get_experience_level, hb]
  · intro job_title resp h2 h100
    have hne : (pyStrip resp.content == "") = false := by
      rw [beq_eq_false_iff_ne]
      intro he
      rw [he] at h2
      exact absurd h2 (by decide)
    have hc : (!(pyStrip resp.content == "") &&
        decide ((pyStrip resp.content).length > 2) &&
        decide ((pyStrip resp.content).length < 100)) = true := by
      simp [hne, h2, h100]
    simp [infer_industry, hc]
  · intro job_title resp hx
    have hc : (!(pyStrip resp.content == "") &&
        decide ((pyStrip resp.content).length > 2) &&
        decide ((pyStrip resp.content).length < 100)) = false := by
      rcases Nat.lt_or_ge 2 (pyStrip resp.content).length with hlt | hge
      · have hn : ¬ (pyStrip resp.content).length < 100 := fun hcon => hx ⟨hlt, hcon⟩
        simp [hn]
      · have hn : ¬ (pyStrip resp.content).length > 2 := by omega
        simp [hn]
    simp [infer_industry, hc]

/-- Witness for C7: the multi-word answer "I would say Senior" is accepted
verbatim because it contains the valid term "Senior", and a 7-character
industry answer is accepted verbatim. -/
theorem remote_acceptance_rules_witness :
    get_experience_level (Except.ok ⟨"I would say Senior"⟩) 0 "Analyst" = "I would say Senior" ∧
    infer_industry (Except.ok ⟨"FinTech"⟩) "x" = "FinTech" :=
  ⟨remote_acceptance_rules.2.1 0 "Analyst" ⟨"I would say Senior"⟩
      ⟨"Senior", by decide, (containsSub_iff "Senior" (pyStrip "I would say Senior")).mp (by decide)⟩,
   remote_acceptance_rules.2.2.2.1 "x" ⟨"FinTech"⟩ (by decide) (by decide)⟩

/-- C10: the whole-word token-intersection pass of the fallback industry
classification never fires when the substring pass found nothing — every token
of the lowercased title is a contiguous substring of it — so
`fallback_industry_inference` is extensionally equal to the simplified variant
`fallback_industry_simple` (substring scan, then the default label). -/
theorem token_pass_redundant (job_title : String) :
    fallback_industry_inference job_title = fallback_industry_simple job_title := by
  simp only [fallback_industry_inference, fallback_industry_simple]
  cases hf : industry_keywords.find? (fun e => titleMatchesKeywords (pyLower job_title) e.2) with
  | some e => rfl
  | none =>
    have hsecond : industry_keywords.find?
        (fun e => tokensMatchKeywords (pyLower job_title) e.2) = none := by
      rw [List.find?_eq_none] at hf ⊢
      intro e he hcontra
      apply hf e he
      simp only [tokensMatchKeywords, List.any_eq_true] at hcontra
      obtain ⟨kw, hkw, hmem⟩ := hcontra
      rw [List.elem_iff] at hmem
      have hsub : kw.data <:+: (pyLower job_title).data := mem_pyWords_sub hmem
      simp only [titleMatchesKeywords, List.any_eq_true]
      exact ⟨kw, hkw, (containsSub_iff kw (pyLower job_title)).mpr hsub⟩
    rw [hsecond]

/-- C6: with no seniority keyword in the title, the fallback is exactly the
years ladder (<1 Entry Level, <3 Junior, <7 Mid-Level, <12 Senior, <18
Manager, <25 Director, else Executive), and the resulting level is
monotonically non-decreasing in the years under the ladder's seniority
ranking. -/
theorem years_ladder_classification :
    (∀ (years : ℚ) (job_title : String), hasSeniorityKeyword job_title = false →
      fallback_experience_level years job_title =
        (if years < 1 then "Entry Level"
         else if years < 3 then "Junior"
         else if years < 7 then "Mid-Level"
         else if years < 12 then "Senior"
         else if years < 18 then "Manager"
         else if years < 25 then "Director"
         else "Executive"))
  ∧ (∀ (y₁ y₂ : ℚ) (job_title : String), hasSeniorityKeyword job_title = false → y₁ ≤ y₂ →
      levelRank (fallback_experience_level y₁ job_title) ≤
        levelRank (fallback_experience_level y₂ job_title)) := by
  have hmono : ∀ (y₁ y₂ : ℚ), y₁ ≤ y₂ →
      levelRank (yearsLadder y₁) ≤ levelRank (yearsLadder y₂) := by
    intro y₁ y₂ hle
    unfold yearsLadder
    split_ifs <;> first | decide | (exfalso; linarith)
  constructor
  · intro years job_title h
    exact fallback_noKeyword years job_title h
  · intro y₁ y₂ job_title h hle
    rw [fallback_noKeyword y₁ job_title h, fallback_noKeyword y₂ job_title h]
    exact hmono y₁ y₂ hle

/-- Witness for C6: "Software Developer" contains no seniority keyword; at 5
years it classifies as Mid-Level, and moving from 2 to 20 years never lowers
the rank. -/
theorem years_ladder_classification_witness :
    fallback_experience_level 5 "Software Developer" = "Mid-Level" ∧
    levelRank (fallback_experience_level 2 "Software Developer") ≤
      levelRank (fallback_experience_level 20 "Software Developer") := by
  constructor
  · have h := years_ladder_classification.1 5 "Software Developer" (by decide)
    rw [h, if_neg (by norm_num : ¬ (5:ℚ) < 1), if_neg (by norm_num : ¬ (5:ℚ) < 3),
      if_pos (by norm_num : (5:ℚ) < 7)]
  · exact years_ladder_classification.2 2 20 "Software Developer" (by decide) (by norm_num)

/-- C8: prompt synthesis is effect-free and a pure function of the request,
the two classification results and the timestamp (the current time): the
prompt factors through `buildPromptText`, and two invocations agreeing on the
request, the classification results and the time produce the identical prompt
string — the service oracles influence the prompt only through the
classification results. -/
theorem build_prompt_pure :
    (∀ (p : JobParameters) (timestamp : String) (expSvc indSvc : Except String ChatResponse),
      build_prompt p timestamp expSvc indSvc =
        buildPromptText p (get_experience_level expSvc p.experience p.job_title)
          (infer_industry indSvc p.job_title) timestamp)
  ∧ (∀ (p : JobParameters) (timestamp : String)
      (expSvc indSvc expSvc' indSvc' : Except String ChatResponse),
      get_experience_level expSvc p.experience p.job_title =
        get_experience_level expSvc' p.experience p.job_title →
      infer_industry indSvc p.job_title = infer_industry indSvc' p.job_title →
      build_prompt p timestamp expSvc indSvc = build_prompt p timestamp expSvc' indSvc') := by
  refine ⟨fun p timestamp expSvc indSvc => rfl, ?_⟩
  intro p timestamp expSvc indSvc expSvc' indSvc' h1 h2
  simp only [build_prompt]
  rw [h1, h2]

/-- Witness for C8: two runs whose service calls fail with different transport
errors still agree on both classification results, hence produce the identical
prompt. -/
theorem build_prompt_pure_witness :
    build_prompt ⟨"Data Analyst", 3, "BS", none, none⟩ "2025-01-01T00:00:00"
        (Except.error "timeout") (Except.error "rate limit") =
      build_prompt ⟨"Data Analyst", 3, "BS", none, none⟩ "2025-01-01T00:00:00"
        (Except.error "connection reset") (Except.error "http 500") :=
  build_prompt_pure.2 ⟨"Data Analyst", 3, "BS", none, none⟩ "2025-01-01T00:00:00"
    (Except.error "timeout") (Except.error "rate limit")
    (Except.error "connection reset") (Except.error "http 500") rfl rfl

/-- C1: every document accepted by response validation has duplicate-free
skills (case-sensitive exact equality) and non-empty list sections. -/
theorem validated_sections_invariant (raw doc : JobSections)
    (h : validate_sections raw = Except.ok doc) :
    doc.skills.Nodup ∧ doc.Key_Responsibilities ≠ [] ∧ doc.Required_Qualifications ≠ [] ∧
      doc.Preferred_Qualifications ≠ [] ∧ doc.What_We_Offer ≠ [] ∧ doc.skills ≠ [] := by
  rw [validate_sections] at h
  by_cases hc : raw.Executive_Summary = "" ∨ raw.Key_Responsibilities = [] ∨
      raw.Required_Qualifications = [] ∨ raw.Preferred_Qualifications = [] ∨
      raw.What_We_Offer = [] ∨ raw.skills = []
  · rw [if_pos hc] at h
    exact absurd h (by simp)
  · rw [if_neg hc] at h
    injection h with h
    subst h
    push_neg at hc
    obtain ⟨-, h2, h3, h4, h5, h6⟩ := hc
    exact ⟨nodup_dedupSeen raw.skills [], h2, h3, h4, h5, dedupSkills_ne_nil h6⟩

/-- Witness for C1: validating a raw section set with a duplicated skill
succeeds and yields duplicate-free, non-empty lists. -/
theorem validated_sections_invariant_witness :
    (["a"] : List String).Nodup ∧ (["r"] : List String) ≠ [] ∧ (["q"] : List String) ≠ [] ∧
      (["p"] : List String) ≠ [] ∧ (["b"] : List String) ≠ [] ∧ (["a"] : List String) ≠ [] :=
  validated_sections_invariant ⟨"s", ["r"], ["q"], ["p"], ["b"], ["a", "a"]⟩
    ⟨"s", ["r"], ["q"], ["p"], ["b"], ["a"]⟩ rfl

/-- C2 counterexample: when the completion service returns an empty body,
`generate` does not fail at all — there is no emptiness check and no
`GenerationError` in the source — it returns the empty string as a success. -/
theorem generate_empty_body_succeeds : generate (Except.ok ⟨""⟩) = Except.ok "" := rfl

/-- C2 (amended): `generate` propagates a service transport error unchanged
and returns the response body as-is (even when empty); when the service
returns an empty string, the run aborts at `json.loads` in `main` — a JSON
decode error, not a `GenerationError` — and no file is written. -/
theorem generate_propagates_and_empty_fails {α : Type} (decode : String → Option α) :
    (∀ err, runMain decode (Except.error err) = MainOutcome.service_error err)
  ∧ (∀ resp, generate (Except.ok resp) = Except.ok resp.content)
  ∧ (decode "" = none →
      runMain decode (Except.ok ⟨""⟩) = MainOutcome.json_decode_error ∧
      ∀ doc, runMain decode (Except.ok ⟨""⟩) ≠ MainOutcome.wrote doc) := by
  refine ⟨fun err => rfl, fun resp => rfl, fun h => ?_⟩
  constructor
  · simp [runMain, generate, h]
  · intro doc
    simp [runMain, generate, h]

/-- Witness for C2 (amended): with a decoder rejecting the empty document
(as `json.loads` does), an empty completion body ends the run in a JSON decode
error. -/
theorem generate_propagates_witness :
    runMain (fun _ : String => (none : Option Unit)) (Except.ok ⟨""⟩) =
      MainOutcome.json_decode_error :=
  ((generate_propagates_and_empty_fails (fun _ : String => (none : Option Unit))).2.2 rfl).1

/-- C3 counterexample: on the remote-failure path the fallback is invoked
without the job title (source lines 150/154 pass only `years`), so
"Senior Analyst" at 0.5 years classifies as "Entry Level" there, although the
fallback invoked with the title yields "Senior". -/
theorem failure_path_drops_title :
    get_experience_level (Except.error "transport error") (1/2) "Senior Analyst" =
      "Entry Level" ∧
    fallback_experience_level (1/2) "Senior Analyst" = "Senior" := by
  constructor
  · show fallback_experience_level (1/2) "" = "Entry Level"
    rw [fallback_empty_title]
    unfold yearsLadder
    rw [if_pos (by norm_num : (1/2 : ℚ) < 1)]
  · decide

/-- C3 (amended): for years < 1 the fallback returns Entry Level whenever the
title carries no seniority keyword, and a title keyword overrides the years
("Senior Analyst" at 0.5 years gives Senior) — but on the remote-failure path
the fallback receives an empty title, so for years < 1 the result is Entry
Level regardless of the requested title. -/
theorem entry_level_under_one_year :
    (∀ (years : ℚ) (job_title : String), years < 1 → hasSeniorityKeyword job_title = false →
      fallback_experience_level years job_title = "Entry Level")
  ∧ fallback_experience_level (1/2) "Senior Analyst" = "Senior"
  ∧ (∀ (years : ℚ) (job_title err : String), years < 1 →
      get_experience_level (Except.error err) years job_title = "Entry Level") := by
  have hladder : ∀ (years : ℚ), years < 1 → yearsLadder years = "Entry Level" := by
    intro years h
    unfold yearsLadder
    rw [if_pos h]
  refine ⟨?_, by decide, ?_⟩
  · intro years job_title h hk
    rw [fallback_noKeyword years job_title hk]
    exact hladder years h
  · intro years job_title err h
    show fallback_experience_level years "" = "Entry Level"
    rw [fallback_empty_title]
    exact hladder years h

/-- Witness for C3 (amended): 0.5 years with a keyword-free title gives Entry
Level, and on the failure path even "Senior Analyst" gives Entry Level. -/
theorem entry_level_under_one_year_witness :
    fallback_experience_level (1/2) "Software Developer" = "Entry Level" ∧
    get_experience_level (Except.error "e") (1/2) "Senior Analyst" = "Entry Level" :=
  ⟨entry_level_under_one_year.1 (1/2) "Software Developer" (by norm_num) (by decide),
   entry_level_under_one_year.2.2 (1/2) "Senior Analyst" "e" (by norm_num)⟩

/-- C4 counterexample: "Chief Internal Auditor" contains "chief", yet the
fallback classifies it as Entry Level (at 20 years), because "Internal"
contains "intern" and that check runs first. -/
theorem chief_intern_counterexample :
    containsSub "chief" (pyLower "Chief Internal Auditor") = true ∧
    fallback_experience_level 20 "Chief Internal Auditor" = "Entry Level" := by
  constructor <;> decide

/-- C4 (amended): a title containing "chief" or a C-suite abbreviation, and
not containing "intern", "trainee" or "apprentice", never classifies as Entry
Level in the fallback, for any years value. -/
theorem chief_titles_not_entry_level (years : ℚ) (job_title : String)
    (hchief : (["chief", "ceo", "cto", "cfo", "coo", "cio", "cmo"].any
        fun keyword => containsSub keyword (pyLower job_title)) = true)
    (hnointern : (["intern", "trainee", "apprentice"].any
        fun keyword => containsSub keyword (pyLower job_title)) = false) :
    fallback_experience_level years job_title ≠ "Entry Level" := by
  have hc8 : (["chief", "cfo", "ceo", "coo", "cto", "cio", "cmo", "c-level"].any
      fun keyword => containsSub keyword (pyLower job_title)) = true := by
    rw [List.any_eq_true] at hchief ⊢
    obtain ⟨k, hk, hck⟩ := hchief
    refine ⟨k, ?_, hck⟩
    simp only [List.mem_cons, List.not_mem_nil, or_false] at hk ⊢
    tauto
  simp only [fallback_experience_level]
  rw [hnointern, hc8]
  simp only [Bool.false_eq_true, if_false]
  split_ifs <;> decide

/-- Witness for C4 (amended): "CTO" at 0 years does not classify as Entry
Level. -/
theorem chief_titles_not_entry_level_witness :
    fallback_experience_level 0 "CTO" ≠ "Entry Level" :=
  chief_titles_not_entry_level 0 "CTO" (by decide) (by decide)

/-- C5 counterexample: "Machine Learning Engineer" matches the AI/ML keyword
list (via "machine learning") and the Technology keyword list (via
"engineer"), yet classifies as Technology & Software Development — AI/ML
keywords are NOT checked before the generic Technology keywords. -/
theorem ml_title_classified_as_technology :
    titleMatchesKeywords (pyLower "Machine Learning Engineer")
        ["ai", "artificial intelligence", "ml", "machine learning", "nlp",
         "deep learning", "cv", "computer vision", "data scientist", "data science"] = true ∧
    titleMatchesKeywords (pyLower "Machine Learning Engineer")
        ["software", "developer", "engineer", "programmer", "it", "coding",
         "devops", "architect", "qa", "web", "full stack", "backend", "frontend", "cloud"]
      = true ∧
    fallback_industry_inference "Machine Learning Engineer" =
      "Technology & Software Development" ∧
    fallback_industry_inference "Machine Learning Engineer" ≠
      "Artificial Intelligence & Machine Learning" :=
  ⟨by decide, by decide, by decide, by decide⟩

/-- C5 (amended): the table scan is order-stable — a title matching several
categories classifies as the first matching entry in table order — but in the
production table "Technology & Software Development" is entry 0 and
"Artificial Intelligence & Machine Learning" is entry 1, so generic Technology
keywords are checked before AI/ML keywords. -/
theorem industry_first_match_order :
    (∀ (job_title : String) (i : ℕ) (e : String × List String),
      industry_keywords.get? i = some e →
      titleMatchesKeywords (pyLower job_title) e.2 = true →
      (∀ j, j < i → ∀ ej, industry_keywords.get? j = some ej →
        titleMatchesKeywords (pyLower job_title) ej.2 = false) →
      fallback_industry_inference job_title = e.1)
  ∧ (industry_keywords.map Prod.fst).get? 0 = some "Technology & Software Development"
  ∧ (industry_keywords.map Prod.fst).get? 1 =
      some "Artificial Intelligence & Machine Learning" := by
  refine ⟨?_, rfl, rfl⟩
  intro job_title i e hget hmatch hbefore
  have hfind : industry_keywords.find?
      (fun e => titleMatchesKeywords (pyLower job_title) e.2) = some e :=
    find_first _ industry_keywords i e hget hmatch hbefore
  simp [fallback_industry_inference, hfind]

/-- Witness for C5 (amended): "Machine Learning Engineer" matches entry 0 of
the table (Technology, via "engineer"), there is no earlier entry, and the
classification is indeed that entry's label. -/
theorem industry_first_match_order_witness :
    fallback_industry_inference "Machine Learning Engineer" =
      "Technology & Software Development" :=
  industry_first_match_order.1 "Machine Learning Engineer" 0
    ("Technology & Software Development",
     ["software", "developer", "engineer", "programmer", "it", "coding",
      "devops", "architect", "qa", "web", "full stack", "backend", "frontend", "cloud"])
    rfl (by decide) (fun j hj ej hj2 => absurd hj (Nat.not_lt_zero j))
